import Mathlib

/-!
Verification development for the HRV-TCM proof-of-concept pipeline.

The Python source is shallowly embedded as follows.

* Python floats are modelled as elements of a `LinearOrderedField`
  (instantiated at `ℚ` for concrete evaluation and at `ℝ` where the
  transcendental `math.log` is involved); float arithmetic is modelled as
  exact field arithmetic.
* A value that may be `None` or non-numeric (so that `float(x)` raises and
  the `except` branch runs) is modelled as `Option`, with `none` covering
  both the missing and the non-numeric case.
* `math.log` is modelled by `Real.log`; the code only ever applies it to
  strictly positive arguments (this is proved below), where `Real.log`
  agrees with the mathematical logarithm.
* Python dictionaries with a fixed key set are modelled as structures;
  `dict.get(key, default)` lookups keyed by an arbitrary string are
  modelled as total functions whose final `else` branch is the default.
* All embedded functions are total, mirroring the source, whose only
  `try/except` blocks feed substitute values instead of propagating errors.
-/

/-- The epsilon `1e-9` used by `safe_ln` and `TPQ` (core/measures.py). -/
def eps9 {α : Type} [LinearOrderedField α] : α := 1 / 1000000000

/-- Argument that `safe_ln` (core/measures.py) passes to `math.log`:
`float(x)` when that is positive, the epsilon when `x ≤ 0` or when `float(x)`
raises (missing / non-numeric input, modelled as `none`). -/
def safe_ln_arg {α : Type} [LinearOrderedField α] (x : Option α) (eps : α) : α :=
  match x with
  | none => eps
  | some v => if v ≤ 0 then eps else v

/-- `safe_ln` of core/measures.py: `math.log` of the guarded argument. -/
noncomputable def safe_ln (x : Option ℝ) (eps : ℝ) : ℝ :=
  Real.log (safe_ln_arg x eps)

/-- The raw-data dataclass `HRVMeasures` (core/measures.py); every field is a
float, defaulting to `0.0` in the source when not supplied. -/
structure HRVMeasures (α : Type) where
  HR : α
  SDNN : α
  RV : α
  ER : α
  N : α
  TP : α
  LF : α
  HF : α
  NN : α
  Balance : α

/-- Derived property `TPQ` (core/measures.py): `TP / (LF + HF)`, with the
denominator replaced by `1e-9` when `LF + HF ≤ 0`.  The `except` fallback to
`0.0` is unreachable for numeric fields and is not modelled. -/
def HRVMeasures.TPQ {α : Type} [LinearOrderedField α] (m : HRVMeasures α) : α :=
  if m.LF + m.HF ≤ 0 then m.TP / eps9 else m.TP / (m.LF + m.HF)

/-- Derived property `lnTP` (core/measures.py). -/
noncomputable def HRVMeasures.lnTP (m : HRVMeasures ℝ) : ℝ :=
  safe_ln (some m.TP) eps9

/-- Derived property `lnLF` (core/measures.py). -/
noncomputable def HRVMeasures.lnLF (m : HRVMeasures ℝ) : ℝ :=
  safe_ln (some m.LF) eps9

/-- Derived property `lnHF` (core/measures.py). -/
noncomputable def HRVMeasures.lnHF (m : HRVMeasures ℝ) : ℝ :=
  safe_ln (some m.HF) eps9

/-- Derived property `lnLFHF = lnLF - lnHF` (core/measures.py). -/
noncomputable def HRVMeasures.lnLFHF (m : HRVMeasures ℝ) : ℝ :=
  m.lnLF - m.lnHF

/-- Derived property `is_in_healthy_zone` (core/measures.py). -/
noncomputable def HRVMeasures.is_in_healthy_zone (m : HRVMeasures ℝ) : Prop :=
  |m.lnLFHF| ≤ 1/2 ∧ |m.lnTP - 6| ≤ 1/2

/-- Derived property `healthy_zone_distance` (core/measures.py). -/
noncomputable def HRVMeasures.healthy_zone_distance (m : HRVMeasures ℝ) : ℝ :=
  Real.sqrt (m.lnLFHF * m.lnLFHF + (m.lnTP - 6) * (m.lnTP - 6))

/-- The string `"未知"` (Unknown). -/
def unknownS : String := "未知"

/-- The string `"陽"` (Yang). -/
def yangS : String := "陽"

/-- The string `"陰"` (Yin). -/
def yinS : String := "陰"

/-- The string `"實"` (Replete). -/
def shiS : String := "實"

/-- The string `"虛"` (Deficient). -/
def xuS : String := "虛"

/-- The string `"平"` (Balanced axis value). -/
def pingS : String := "平"

/-- The string `"陽實型"` (Yang-Excess). -/
def quadYangShi : String := "陽實型"

/-- The string `"陽虛型"` (Yang-Deficient). -/
def quadYangXu : String := "陽虛型"

/-- The string `"陰實型"` (Yin-Excess). -/
def quadYinShi : String := "陰實型"

/-- The string `"陰虛型"` (Yin-Deficient). -/
def quadYinXu : String := "陰虛型"

/-- The string `"陰陽平衡型"` (Balanced quadrant). -/
def quadBalanced : String := "陰陽平衡型"

/-- `classify_yin_yang` (code/quadrant.py): `"陽"` when the value is strictly
above the threshold (default `0.0`), `"陰"` otherwise; `"未知"` when the input
is `None` or `float()` raises. -/
def classify_yin_yang {α : Type} [LinearOrderedField α]
    (ln_lfhf : Option α) (threshold : α) : String :=
  match ln_lfhf with
  | none => unknownS
  | some v => if threshold < v then yangS else yinS

/-- `classify_xu_shi` (code/quadrant.py): `"實"` when `v ≥ mu + tol`, `"虛"`
when `v ≤ mu - tol`, `"平"` otherwise; `"未知"` on missing / non-numeric
input.  Source defaults: `mu = 6.0`, `tol = 0.5`. -/
def classify_xu_shi {α : Type} [LinearOrderedField α]
    (ln_tp : Option α) (mu tol : α) : String :=
  match ln_tp with
  | none => unknownS
  | some v =>
    if mu + tol ≤ v then shiS
    else if v ≤ mu - tol then xuS
    else pingS

/-- `classify_quadrant` (code/quadrant.py): the 4-entry table followed by the
`"平"` fallback and the `"未知"` fallback, in source order. -/
def classify_quadrant (yin_yang xu_shi : String) : String :=
  if yin_yang = yangS ∧ xu_shi = shiS then quadYangShi
  else if yin_yang = yangS ∧ xu_shi = xuS then quadYangXu
  else if yin_yang = yinS ∧ xu_shi = shiS then quadYinShi
  else if yin_yang = yinS ∧ xu_shi = xuS then quadYinXu
  else if xu_shi = pingS then quadBalanced
  else unknownS

/-- Result dictionary of `analyze_quadrant` (code/quadrant.py). -/
structure QuadInfo (α : Type) where
  yin_yang : String
  xu_shi : String
  quadrant : String
  X : Option α
  Y : Option α
  healthy_zone_flag : Option Prop
  healthy_zone_distance : Option α

/-- `analyze_quadrant` (code/quadrant.py) applied to an `HRVMeasures` object:
all the `getattr` probes find the dataclass properties, so every classifier
receives a present (`some`) numeric argument.  Source defaults: `mu = 6.0`,
`tol = 0.5`. -/
noncomputable def analyze_quadrant (m : HRVMeasures ℝ) (mu tol : ℝ) : QuadInfo ℝ :=
  let yy := classify_yin_yang (some m.lnLFHF) 0
  let xs := classify_xu_shi (some m.lnTP) mu tol
  ⟨yy, xs, classify_quadrant yy xs, some m.lnLFHF, some m.lnTP,
    some m.is_in_healthy_zone, some m.healthy_zone_distance⟩

/-- The string `"高（能量充足）"` (TP level High). -/
def tpHighL : String := "高（能量充足）"

/-- The string `"中（一般）"` (TP / RV level Mid). -/
def tpMidL : String := "中（一般）"

/-- The string `"低（能量不足）"` (TP level Low). -/
def tpLowL : String := "低（能量不足）"

/-- The string `"高（恢復力佳）"` (RV level High). -/
def rvHighL : String := "高（恢復力佳）"

/-- The string `"中（一般）"` (RV level Mid; same text as the TP Mid label). -/
def rvMidL : String := "中（一般）"

/-- The string `"低（恢復偏弱）"` (RV level Low). -/
def rvLowL : String := "低（恢復偏弱）"

/-- The string `"高（彈性好）"` (SDNN level High). -/
def sdHighL : String := "高（彈性好）"

/-- The string `"中（正常）"` (SDNN level Mid). -/
def sdMidL : String := "中（正常）"

/-- The string `"低（彈性不足）"` (SDNN level Low). -/
def sdLowL : String := "低（彈性不足）"

/-- `HRVLevels.tp_level` (core/levels.py): thresholds `6.5` and `5.5`,
inclusive on the upper tier. -/
def tp_level {α : Type} [LinearOrderedField α] (lnTP : α) : String :=
  if 13/2 ≤ lnTP then tpHighL
  else if 11/2 ≤ lnTP then tpMidL
  else tpLowL

/-- `HRVLevels.rv_level` (core/levels.py): thresholds `1500` and `800`. -/
def rv_level {α : Type} [LinearOrderedField α] (RV : α) : String :=
  if 1500 ≤ RV then rvHighL
  else if 800 ≤ RV then rvMidL
  else rvLowL

/-- `HRVLevels.sdnn_level` (core/levels.py): thresholds `70` and `50`. -/
def sdnn_level {α : Type} [LinearOrderedField α] (SDNN : α) : String :=
  if 70 ≤ SDNN then sdHighL
  else if 50 ≤ SDNN then sdMidL
  else sdLowL

/-- Result dictionary of `HRVLevels.all_levels` (core/levels.py); also models
the `level_info` dictionary consumed by `generate_phenotypes`, whose three
`.get` lookups always find these keys. -/
structure LevelInfo where
  TP_Level : String
  RV_Level : String
  SDNN_Level : String

/-- `HRVLevels.all_levels` (core/levels.py) on an `HRVMeasures` object. -/
noncomputable def all_levels (m : HRVMeasures ℝ) : LevelInfo :=
  ⟨tp_level m.lnTP, rv_level m.RV, sdnn_level m.SDNN⟩

/-- `_level_core` (code/phenotypes.py): strip and take the first character
(`"高"` / `"中"` / `"低"` for the level labels above). -/
def level_core (level_str : String) : String :=
  (level_str.trim).take 1

/-- The string `"高"` (High, first character of a level label). -/
def highC : String := "高"

/-- The string `"中"` (Mid, first character of a level label). -/
def midC : String := "中"

/-- The string `"低"` (Low, first character of a level label). -/
def lowC : String := "低"

/-- Generic base phenotype sentence for an unknown quadrant
(code/phenotypes.py, final `else`). -/
def unknownBaseS : String := "目前數據較不足，難以明確描述體質特徵。"

/-- Quadrant-keyed base phenotype lists (code/phenotypes.py, the
`if quadrant == ...` chain). -/
def base_phenos (quadrant : String) : List String :=
  if quadrant = quadYangShi then
    ["容易感到緊繃或煩躁，情緒起伏偏大",
     "肩頸容易緊、偶爾會覺得頭脹或頭重",
     "睡眠較淺，容易半夜醒來或作夢較多",
     "出汗較多或容易感到燥熱"]
  else if quadrant = quadYangXu then
    ["手腳容易冰冷，體力較難維持一整天",
     "早上起床較吃力，睡醒仍覺得疲倦",
     "稍微活動或走路就容易感到喘或累",
     "下午或晚上精神反而比白天好"]
  else if quadrant = quadYinShi then
    ["身體有些沉重感，容易覺得懶得動",
     "下肢或腳踝偶爾有水腫、緊繃感",
     "飲食稍多就會覺得脹氣或脹滿",
     "體重較不容易下降，代謝感覺偏慢"]
  else if quadrant = quadYinXu then
    ["容易覺得燥熱或心浮氣躁，晚上較難安靜下來",
     "睡眠品質易受影響，可能有淺眠、多夢或入睡困難",
     "時常感到口乾、眼乾或喉嚨偏乾",
     "排便偏乾硬，較容易便秘"]
  else if quadrant = quadBalanced then
    ["白天精神尚可，工作與日常活動多能應付",
     "情緒大致穩定，壓力來時仍能調適",
     "睡眠品質尚可，偶爾受外在因素干擾"]
  else
    [unknownBaseS]

/-- Sentence appended by `generate_phenotypes` per TP tier
(code/phenotypes.py); the empty list covers a level string whose first
character is none of `"高"` / `"中"` / `"低"`. -/
def tp_part (tp_lv : String) : List String :=
  if tp_lv = highC then ["整體可用能量尚足，活動量較大時仍能撐得住。"]
  else if tp_lv = midC then ["日常活動尚可負荷，但若連續熬夜或加班，恢復速度會變慢。"]
  else if tp_lv = lowC then ["稍多一點的工作或壓力，就容易覺得疲憊或懶散無力。"]
  else []

/-- Sentence appended by `generate_phenotypes` per RV tier
(code/phenotypes.py). -/
def rv_part (rv_lv : String) : List String :=
  if rv_lv = highC then ["只要睡眠充足，通常隔天精神能明顯恢復。"]
  else if rv_lv = midC then ["恢復力普通，忙碌幾天後會需要較長時間調整。"]
  else if rv_lv = lowC then ["熬夜或壓力累積後，隔天仍感到疲勞、恢復較慢。"]
  else []

/-- Sentence appended by `generate_phenotypes` per SDNN tier
(code/phenotypes.py). -/
def sd_part (sd_lv : String) : List String :=
  if sd_lv = highC then ["身體適應環境變化的能力不錯，壓力來時仍有一定調節空間。"]
  else if sd_lv = midC then ["在多數情況下能維持穩定，但長期壓力可能逐漸累積。"]
  else if sd_lv = lowC then ["對壓力與作息變動較敏感，容易出現疲勞、緊繃或睡不好。"]
  else []

/-- Heart-rate sentence for `hr > 85` (code/phenotypes.py). -/
def hrFastS : String := "本次量測心率偏快，代表當下較為緊繃或思緒較忙碌。"

/-- Heart-rate sentence for `60 ≤ hr ≤ 80` (code/phenotypes.py). -/
def hrMidS : String := "本次量測心率落在一般靜息範圍，代表當下緊張程度尚可。"

/-- Heart-rate sentence for `40 < hr < 60` (code/phenotypes.py). -/
def hrSlowS : String := "本次量測心率偏慢，若平常有運動習慣，可能與訓練有關。"

/-- Heart-rate sentence selection of `generate_phenotypes`
(code/phenotypes.py, the `if hr > 85 / elif / elif` chain). -/
def hr_part {α : Type} [LinearOrderedField α] (hr : α) : List String :=
  if 85 < hr then [hrFastS]
  else if 60 ≤ hr ∧ hr ≤ 80 then [hrMidS]
  else if 40 < hr ∧ hr < 60 then [hrSlowS]
  else []

/-- The full `phenos` list built by `generate_phenotypes`
(code/phenotypes.py) before the deduplication loop. -/
def raw_phenos {α : Type} [LinearOrderedField α]
    (hr : α) (quadrant : String) (level_info : LevelInfo) : List String :=
  base_phenos quadrant
    ++ tp_part (level_core level_info.TP_Level)
    ++ rv_part (level_core level_info.RV_Level)
    ++ sd_part (level_core level_info.SDNN_Level)
    ++ hr_part hr

/-- The `seen`-set deduplication loop at the end of `generate_phenotypes`
(code/phenotypes.py): keep each sentence's first occurrence, in order. -/
def dedup_first (seen : List String) : List String → List String
  | [] => []
  | p :: rest =>
    if p ∈ seen then dedup_first seen rest
    else p :: dedup_first (p :: seen) rest

/-- `generate_phenotypes` (code/phenotypes.py); `hr` is the `HR` attribute
of the measures object (`float(getattr(measures, "HR", 0.0))`). -/
def generate_phenotypes {α : Type} [LinearOrderedField α]
    (hr : α) (quadrant : String) (level_info : LevelInfo) : List String :=
  dedup_first [] (raw_phenos hr quadrant level_info)

/-- `QUADRANT_DESC.get(quadrant, QUADRANT_DESC["未知"])` (code/summary.py):
the static description table with its Unknown fallback. -/
def QUADRANT_DESC (q : String) : String :=
  if q = quadYangShi then "交感偏強、能量偏高，容易處在「火力全開」但較難放鬆的狀態。"
  else if q = quadYangXu then "交感主導但能量不足，外表撐得住，內在較易疲憊與手腳冰冷。"
  else if q = quadYinShi then "副交感偏強、代謝較慢，偏向濕重、黏滯與循環較緩的體質。"
  else if q = quadYinXu then "陰液相對不足，較易燥熱、心煩與睡不好，恢復效率偏低。"
  else if q = quadBalanced then "整體在陰陽與虛實之間相對平衡，屬於較理想的自律神經狀態。"
  else "目前數據不足以明確判定體質傾向，建議日後持續追蹤變化。"

/-- `QUADRANT_ADVICE.get(quadrant, QUADRANT_ADVICE["未知"])` (code/summary.py):
the static advice table with its Unknown fallback (a single-item list). -/
def QUADRANT_ADVICE (q : String) : List String :=
  if q = quadYangShi then
    ["留意情緒與血壓變化，避免長期熬夜與高刺激飲食（咖啡、能量飲）。",
     "安排固定的放鬆時間，如深呼吸、伸展、正念或散步，幫助降火與穩定自律神經。"]
  else if q = quadYangXu then
    ["建立規律作息，避免熬夜，白天適度曬太陽，幫助提升陽氣與體力。",
     "可搭配輕中強度運動（快走、慢跑、肌力訓練），循序漸進補足體能。"]
  else if q = quadYinShi then
    ["飲食上減少過甜、過油與冰冷食物，避免濕氣與黏滯感累積。",
     "增加適度活動與流汗機會，如快走或舒適流汗的運動，促進循環與代謝。"]
  else if q = quadYinXu then
    ["避免長期熬夜與高壓環境，給自己足夠的睡眠與情緒休息時間。",
     "可多做溫和伸展、腹式呼吸與放鬆練習，幫助身心安定與陰液恢復。"]
  else if q = quadBalanced then
    ["目前整體調節能力尚佳，建議持續維持良好作息與規律運動習慣。",
     "持續關注壓力與睡眠品質，避免長期超量負荷打破目前的平衡。"]
  else
    ["建議在身心狀態穩定時再次量測，或搭配較長期的追蹤評估自律神經狀態。"]

/-- `_interpret_hr` (code/summary.py): narrative heart-rate sentence, with
the `None` and non-numeric guards. -/
def interpret_hr {α : Type} [LinearOrderedField α] (hr : Option α) : String :=
  match hr with
  | none => "心率資料不足，暫無法判讀目前的緊張程度。"
  | some h =>
    if h < 60 then "本次量測時心率偏低，若平時有運動習慣，可能與訓練或副交感較活躍有關。"
    else if 60 ≤ h ∧ h ≤ 80 then "本次量測時心率落在一般靜息範圍，代表當下緊張程度大致穩定。"
    else "本次量測時心率偏快，代表當下可能較為緊繃、思緒忙碌或壓力稍高。"

/-- `_interpret_healthy_zone` (code/summary.py): narrative reference-zone
sentence with its `None` guard. -/
def interpret_healthy_zone {α : Type} [LinearOrderedField α] (dist : Option α) : String :=
  match dist with
  | none => "目前無法計算與健康參考區的距離，但仍可作為體質傾向參考。"
  | some d =>
    if d < 7/10 then "測量點非常接近健康參考區，代表能量與陰陽調節相對理想。"
    else if d < 3/2 then "測量點略偏離健康參考區，代表目前狀態有輕度失衡，但仍屬可調整範圍。"
    else "測量點明顯偏離健康參考區，代表身心能量與陰陽調節已有明顯落差，建議持續追蹤並調整作息。"

/-- The report structure returned by `generate_summary` (code/summary.py).
The `meta` mapping, a flat echo of already-modelled values, is not needed by
any claim and is not modelled. -/
structure Report where
  title : String
  summary : String
  phenotypes : List String
  advice : List String

/-- Python `" ".join(parts)`. -/
def join_sp : List String → String
  | [] => ""
  | [s] => s
  | s :: rest => s ++ " " ++ join_sp rest

/-- `generate_summary` (code/summary.py) on an `HRVMeasures` object.  The
`age` / `bmi` numerals interpolated into the text are rendered with
`toString`, a stand-in for Python's formatting (their exact rendering is
presentation detail); the emptiness tests on `name` / `sex` mirror Python's
truthiness (absent or empty string both yield an empty part). -/
noncomputable def generate_summary (m : HRVMeasures ℝ) (name : Option String)
    (age : Option ℤ) (sex : Option String) (bmi : Option ℚ) : Report :=
  let quad_info := analyze_quadrant m 6 (1/2)
  let level_info := all_levels m
  let quadrant := quad_info.quadrant
  let title :=
    if quadrant = unknownS then "目前體質傾向：尚待觀察"
    else "目前體質傾向：" ++ quadrant
  let name_part :=
    match name with
    | none => ""
    | some n => if n = "" then "" else n ++ "（"
  let age_part :=
    match age with
    | none => ""
    | some a => "約 " ++ toString a ++ " 歲、"
  let sex_part :=
    match sex with
    | none => ""
    | some s => if s = "" then "" else s ++ "，"
  let bmi_part :=
    match bmi with
    | none => ""
    | some b => "目前 BMI 約為 " ++ toString b ++ "。"
  let basic_intro := name_part ++ sex_part ++ age_part ++ "本次自律神經量測結果如下："
  let quad_desc := QUADRANT_DESC quadrant
  let hr_text := interpret_hr (some m.HR)
  let hz_text := interpret_healthy_zone quad_info.healthy_zone_distance
  let part2 := "依據 ln(TP) 與 ln(LF/HF) 的座標判定，目前屬於「" ++ quadrant
    ++ "」體質傾向（" ++ quad_info.yin_yang ++ "證、" ++ quad_info.xu_shi
    ++ "證）。" ++ quad_desc
  let part3 := "從三個關鍵指標來看：能量量級（TP）為「" ++ level_info.TP_Level
    ++ "」、恢復力（RV）為「" ++ level_info.RV_Level
    ++ "」、自律神經彈性（SDNN）為「" ++ level_info.SDNN_Level ++ "」。"
  let summary_parts := [basic_intro, part2, part3, hr_text, hz_text, bmi_part]
  let summary_text := join_sp (summary_parts.filter (fun s => s != ""))
  let phenotypes := generate_phenotypes m.HR quadrant level_info
  let advice_list := QUADRANT_ADVICE quadrant
  ⟨title, summary_text, phenotypes, advice_list⟩

/-- The all-zero `HRVMeasures()` value: every raw field at its source
default `0.0`. -/
def zeroMeasures : HRVMeasures ℝ := ⟨0, 0, 0, 0, 0, 0, 0, 0, 0, 0⟩

/-- Measures with `TP = 1`, `LF = 2 ^ (-40)` (an exact float strictly between
`0` and `1e-9`) and every other field `0`. -/
def tinyLFMeasures : HRVMeasures ℚ := ⟨0, 0, 0, 0, 0, 1, 1 / 1099511627776, 0, 0, 0⟩

/-- Measures with `TP = 4`, `LF = 1`, `HF = 1` and every other field `0`. -/
def plainMeasures : HRVMeasures ℚ := ⟨0, 0, 0, 0, 0, 4, 1, 1, 0, 0⟩

/-- Helper: characterisation of a two-threshold grading ladder
`if hi ≤ v then H else if lo ≤ v then M else L` with distinct labels. -/
theorem ladder_iff {α : Type} [LinearOrderedField α] (hi lo : α) (H M L : String)
    (hHM : H ≠ M) (hHL : H ≠ L) (hML : M ≠ L) (hlh : lo < hi) (v : α) :
    ((if hi ≤ v then H else if lo ≤ v then M else L) = H ↔ hi ≤ v) ∧
    ((if hi ≤ v then H else if lo ≤ v then M else L) = M ↔ lo ≤ v ∧ v < hi) ∧
    ((if hi ≤ v then H else if lo ≤ v then M else L) = L ↔ v < lo) := by
  by_cases h1 : hi ≤ v
  · rw [if_pos h1]
    refine ⟨iff_of_true rfl h1, iff_of_false hHM ?_, iff_of_false hHL ?_⟩
    · rintro ⟨-, hv⟩
      exact absurd h1 (not_le.mpr hv)
    · intro hv
      exact absurd h1 (not_le.mpr (hv.trans hlh))
  · by_cases h2 : lo ≤ v
    · rw [if_neg h1, if_pos h2]
      refine ⟨iff_of_false (fun he => hHM he.symm) h1,
        iff_of_true rfl ⟨h2, not_le.mp h1⟩, iff_of_false hML (not_lt.mpr h2)⟩
    · rw [if_neg h1, if_neg h2]
      refine ⟨iff_of_false (fun he => hHL he.symm) h1,
        iff_of_false (fun he => hML he.symm) ?_, iff_of_true rfl (not_le.mp h2)⟩
      rintro ⟨hv, -⟩
      exact absurd hv h2

/-- Claim C1: `safe_ln` is total and never yields a NaN / infinite result:
for every input (present or missing / non-numeric) the argument handed to
`math.log` is strictly positive — so the logarithm is the genuine finite
logarithm of a positive real (`exp` inverts it) — and for `v ≤ 0` or a
missing input that argument is exactly the epsilon `1e-9`. -/
theorem c1_safe_ln_total_and_finite :
    (∀ x : Option ℝ, 0 < safe_ln_arg x (eps9 : ℝ)
      ∧ Real.exp (safe_ln x eps9) = safe_ln_arg x (eps9 : ℝ))
    ∧ (∀ v : ℝ, v ≤ 0 → safe_ln_arg (some v) (eps9 : ℝ) = eps9)
    ∧ safe_ln_arg (none : Option ℝ) (eps9 : ℝ) = eps9 := by
  have heps : (0 : ℝ) < eps9 := by norm_num [eps9]
  refine ⟨fun x => ?_, fun v hv => ?_, rfl⟩
  · have hpos : 0 < safe_ln_arg x (eps9 : ℝ) := by
      cases x with
      | none => exact heps
      | some v =>
        by_cases h : v ≤ 0
        · simpa [safe_ln_arg, h] using heps
        · simpa [safe_ln_arg, h] using not_le.mp h
    exact ⟨hpos, Real.exp_log hpos⟩
  · simp [safe_ln_arg, hv]

/-- Claim C1 witness: the `v ≤ 0` substitution at `v = -3`. -/
theorem c1_safe_ln_total_and_finite_witness :
    safe_ln_arg (some (-3 : ℝ)) (eps9 : ℝ) = eps9 :=
  c1_safe_ln_total_and_finite.2.1 (-3) (by norm_num)

/-- Claim C4: `classify_yin_yang` returns `"陽"` exactly when the present
value is strictly above the threshold and `"陰"` otherwise (so a value equal
to the threshold is `"陰"`); `"未知"` arises only from a missing /
non-numeric input, never from a present value. -/
theorem c4_classify_yin_yang_threshold :
    (∀ v th : ℚ,
      (classify_yin_yang (some v) th = yangS ↔ th < v)
      ∧ (classify_yin_yang (some v) th = yinS ↔ v ≤ th)
      ∧ classify_yin_yang (some v) th ≠ unknownS)
    ∧ (∀ th : ℚ, classify_yin_yang (none : Option ℚ) th = unknownS)
    ∧ classify_yin_yang (some (0 : ℚ)) 0 = yinS := by
  refine ⟨fun v th => ?_, fun th => rfl, by norm_num [classify_yin_yang]⟩
  by_cases h : th < v
  · have hv : classify_yin_yang (some v) th = yangS := by simp [classify_yin_yang, h]
    rw [hv]
    exact ⟨iff_of_true rfl h, iff_of_false (by decide) (not_le.mpr h), by decide⟩
  · have hv : classify_yin_yang (some v) th = yinS := by simp [classify_yin_yang, h]
    rw [hv]
    exact ⟨iff_of_false (by decide) h, iff_of_true rfl (not_lt.mp h), by decide⟩

/-- Claim C3: `classify_xu_shi` grades a present value as `"實"` when
`v ≥ mu + tol`, `"虛"` when `v ≤ mu - tol` (for a positive tolerance) and
`"平"` strictly in between; both boundaries are inclusive (`6.5 → 實`,
`5.5 → 虛` at the defaults `mu = 6`, `tol = 0.5`); `"未知"` arises only from
a missing / non-numeric input. -/
theorem c3_classify_xu_shi_bounds :
    (∀ v mu tol : ℚ, mu + tol ≤ v → classify_xu_shi (some v) mu tol = shiS)
    ∧ (∀ v mu tol : ℚ, 0 < tol → v ≤ mu - tol → classify_xu_shi (some v) mu tol = xuS)
    ∧ (∀ v mu tol : ℚ, mu - tol < v → v < mu + tol → classify_xu_shi (some v) mu tol = pingS)
    ∧ classify_xu_shi (some (13/2 : ℚ)) 6 (1/2) = shiS
    ∧ classify_xu_shi (some (11/2 : ℚ)) 6 (1/2) = xuS
    ∧ (∀ mu tol : ℚ, classify_xu_shi (none : Option ℚ) mu tol = unknownS)
    ∧ (∀ v mu tol : ℚ, classify_xu_shi (some v) mu tol ≠ unknownS) := by
  refine ⟨fun v mu tol h => by simp [classify_xu_shi, h],
    fun v mu tol htol h => ?_, fun v mu tol h1 h2 => ?_,
    by norm_num [classify_xu_shi], by norm_num [classify_xu_shi],
    fun mu tol => rfl, fun v mu tol => ?_⟩
  · have hns : ¬(mu + tol ≤ v) := by linarith
    simp [classify_xu_shi, hns, h]
  · have hns : ¬(mu + tol ≤ v) := not_le.mpr h2
    have hnx : ¬(v ≤ mu - tol) := not_le.mpr h1
    simp [classify_xu_shi, hns, hnx]
  · show (if mu + tol ≤ v then shiS else if v ≤ mu - tol then xuS else pingS) ≠ unknownS
    split
    · decide
    · split
      · decide
      · decide

/-- Claim C5: all three level graders use inclusive upper-tier boundaries:
`tp_level` is High iff `v ≥ 6.5`, Mid iff `5.5 ≤ v < 6.5`, Low iff
`v < 5.5` (so `6.5` is High, `5.5` is Mid, `5.4999` is Low), and `rv_level`
and `sdnn_level` obey the same law at `1500 / 800` and `70 / 50`. -/
theorem c5_levels_inclusive_boundaries :
    (∀ v : ℚ, (tp_level v = tpHighL ↔ 13/2 ≤ v)
      ∧ (tp_level v = tpMidL ↔ 11/2 ≤ v ∧ v < 13/2)
      ∧ (tp_level v = tpLowL ↔ v < 11/2))
    ∧ tp_level ((13/2 : ℚ)) = tpHighL
    ∧ tp_level ((11/2 : ℚ)) = tpMidL
    ∧ tp_level ((54999/10000 : ℚ)) = tpLowL
    ∧ (∀ v : ℚ, (rv_level v = rvHighL ↔ 1500 ≤ v)
      ∧ (rv_level v = rvMidL ↔ 800 ≤ v ∧ v < 1500)
      ∧ (rv_level v = rvLowL ↔ v < 800))
    ∧ rv_level ((1500 : ℚ)) = rvHighL
    ∧ rv_level ((800 : ℚ)) = rvMidL
    ∧ (∀ v : ℚ, (sdnn_level v = sdHighL ↔ 70 ≤ v)
      ∧ (sdnn_level v = sdMidL ↔ 50 ≤ v ∧ v < 70)
      ∧ (sdnn_level v = sdLowL ↔ v < 50))
    ∧ sdnn_level ((70 : ℚ)) = sdHighL
    ∧ sdnn_level ((50 : ℚ)) = sdMidL := by
  have htp := fun v : ℚ => ladder_iff (13/2) (11/2) tpHighL tpMidL tpLowL
    (by decide) (by decide) (by decide) (by norm_num) v
  have hrv := fun v : ℚ => ladder_iff 1500 800 rvHighL rvMidL rvLowL
    (by decide) (by decide) (by decide) (by norm_num) v
  have hsd := fun v : ℚ => ladder_iff 70 50 sdHighL sdMidL sdLowL
    (by decide) (by decide) (by decide) (by norm_num) v
  refine ⟨htp, ((htp _).1).mpr (by norm_num),
    ((htp _).2.1).mpr ⟨by norm_num, by norm_num⟩,
    ((htp _).2.2).mpr (by norm_num), hrv,
    ((hrv _).1).mpr (by norm_num),
    ((hrv _).2.1).mpr ⟨by norm_num, by norm_num⟩, hsd,
    ((hsd _).1).mpr (by norm_num),
    ((hsd _).2.1).mpr ⟨by norm_num, by norm_num⟩⟩

/-- Claim C2: `classify_quadrant` maps the four table pairs to their
quadrants; for any pair outside the table it returns `"陰陽平衡型"` exactly
when the xu-shi axis is `"平"` (whatever the yin-yang value) and `"未知"` in
every remaining case — the table check precedes the balanced check, which
precedes the unknown fallback. -/
theorem c2_classify_quadrant_table :
    classify_quadrant yangS shiS = quadYangShi
    ∧ classify_quadrant yangS xuS = quadYangXu
    ∧ classify_quadrant yinS shiS = quadYinShi
    ∧ classify_quadrant yinS xuS = quadYinXu
    ∧ (∀ yy xs : String,
        ¬((yy = yangS ∨ yy = yinS) ∧ (xs = shiS ∨ xs = xuS)) →
          (classify_quadrant yy xs = quadBalanced ↔ xs = pingS)
          ∧ (classify_quadrant yy xs = unknownS ↔ xs ≠ pingS)) := by
  refine ⟨by decide, by decide, by decide, by decide, fun yy xs h => ?_⟩
  have h1 : ¬(yy = yangS ∧ xs = shiS) := fun hc => h ⟨Or.inl hc.1, Or.inl hc.2⟩
  have h2 : ¬(yy = yangS ∧ xs = xuS) := fun hc => h ⟨Or.inl hc.1, Or.inr hc.2⟩
  have h3 : ¬(yy = yinS ∧ xs = shiS) := fun hc => h ⟨Or.inr hc.1, Or.inl hc.2⟩
  have h4 : ¬(yy = yinS ∧ xs = xuS) := fun hc => h ⟨Or.inr hc.1, Or.inr hc.2⟩
  have hv : classify_quadrant yy xs = if xs = pingS then quadBalanced else unknownS := by
    unfold classify_quadrant
    rw [if_neg h1, if_neg h2, if_neg h3, if_neg h4]
  rw [hv]
  by_cases hp : xs = pingS
  · rw [if_pos hp]
    exact ⟨iff_of_true rfl hp, iff_of_false (by decide) (fun hn => hn hp)⟩
  · rw [if_neg hp]
    exact ⟨iff_of_false (by decide) hp, iff_of_true rfl hp⟩

/-- Claim C2 witness: an off-table pair with a balanced xu-shi axis
(`yin_yang = "未知"`, `xu_shi = "平"`) classifies as `"陰陽平衡型"`. -/
theorem c2_classify_quadrant_table_witness :
    classify_quadrant unknownS pingS = quadBalanced :=
  ((c2_classify_quadrant_table.2.2.2.2 unknownS pingS (by decide)).1).mpr rfl

/-- Claim C3 witness: the inclusive lower boundary with positive tolerance —
`classify_xu_shi` at `v = 11/2 = mu - tol` with `mu = 6`, `tol = 1/2`. -/
theorem c3_classify_xu_shi_bounds_witness :
    classify_xu_shi (some (11/2 : ℚ)) 6 (1/2) = xuS :=
  c3_classify_xu_shi_bounds.2.1 (11/2) 6 (1/2) (by norm_num) (by norm_num)

/-- Claim C8, as stated, is false: with `LF = 2 ^ (-40)` (strictly between
`0` and `1e-9`), `HF = 0` and `TP = 1` the code divides by `LF + HF` itself
(giving `2 ^ 40`), not by `max (LF + HF) 1e-9 = 1e-9`. -/
theorem c8_tpq_counterexample :
    ¬(tinyLFMeasures.TPQ
        = tinyLFMeasures.TP / max (tinyLFMeasures.LF + tinyLFMeasures.HF) eps9) := by
  have hmax : max (tinyLFMeasures.LF + tinyLFMeasures.HF) eps9 = (eps9 : ℚ) :=
    max_eq_right (by norm_num [tinyLFMeasures, eps9])
  rw [hmax]
  norm_num [tinyLFMeasures, HRVMeasures.TPQ, eps9]

/-- Claim C8 amended: `TPQ` equals `TP / (LF + HF)` whenever `LF + HF > 0`
(including the band `0 < LF + HF < 1e-9`) and `TP / 1e-9` when
`LF + HF ≤ 0`; it agrees with the spec formula `TP / max (LF + HF) 1e-9`
except on that band. -/
theorem c8_tpq_amended :
    ∀ m : HRVMeasures ℚ,
      (m.LF + m.HF ≤ 0 → m.TPQ = m.TP / eps9)
      ∧ (0 < m.LF + m.HF → m.TPQ = m.TP / (m.LF + m.HF))
      ∧ (eps9 ≤ m.LF + m.HF ∨ m.LF + m.HF ≤ 0 →
          m.TPQ = m.TP / max (m.LF + m.HF) eps9) := by
  intro m
  refine ⟨fun h => by rw [HRVMeasures.TPQ, if_pos h],
    fun h => by rw [HRVMeasures.TPQ, if_neg (not_le.mpr h)], fun h => ?_⟩
  rcases h with h | h
  · have h0 : ¬(m.LF + m.HF ≤ 0) :=
      not_le.mpr (lt_of_lt_of_le (by norm_num [eps9]) h)
    rw [HRVMeasures.TPQ, if_neg h0, max_eq_left (le_trans (by norm_num [eps9]) h)]
  · rw [HRVMeasures.TPQ, if_pos h, max_eq_right (le_trans h (by norm_num [eps9]))]

/-- Claim C8 amended witness: with `LF = HF = 1`, `TP = 4` the efficiency is
`TP / (LF + HF)`. -/
theorem c8_tpq_amended_witness :
    plainMeasures.TPQ = plainMeasures.TP / (plainMeasures.LF + plainMeasures.HF) :=
  (c8_tpq_amended plainMeasures).2.1 (by norm_num [plainMeasures])

/-- Helper: membership in the deduplication loop's output. -/
theorem dedup_first_mem :
    ∀ (l seen : List String) (x : String),
      x ∈ dedup_first seen l ↔ x ∈ l ∧ x ∉ seen := by
  intro l
  induction l with
  | nil => intro seen x; simp [dedup_first]
  | cons p rest ih =>
    intro seen x
    by_cases hp : p ∈ seen
    · rw [show dedup_first seen (p :: rest) = dedup_first seen rest by
        simp [dedup_first, hp]]
      rw [ih]
      simp only [List.mem_cons]
      constructor
      · rintro ⟨hx, hn⟩
        exact ⟨Or.inr hx, hn⟩
      · rintro ⟨rfl | hx, hn⟩
        · exact absurd hp hn
        · exact ⟨hx, hn⟩
    · rw [show dedup_first seen (p :: rest) = p :: dedup_first (p :: seen) rest by
        simp [dedup_first, hp]]
      by_cases hxp : x = p
      · subst hxp
        simp [List.mem_cons, ih, hp]
      · simp [List.mem_cons, ih, hxp]

/-- Helper: the deduplication loop's output is a sublist of its input. -/
theorem dedup_first_sublist :
    ∀ (l seen : List String), (dedup_first seen l).Sublist l := by
  intro l
  induction l with
  | nil => intro seen; simp [dedup_first]
  | cons p rest ih =>
    intro seen
    by_cases hp : p ∈ seen
    · rw [show dedup_first seen (p :: rest) = dedup_first seen rest by
        simp [dedup_first, hp]]
      exact (ih seen).trans (List.sublist_cons_self p rest)
    · rw [show dedup_first seen (p :: rest) = p :: dedup_first (p :: seen) rest by
        simp [dedup_first, hp]]
      exact (ih (p :: seen)).cons₂ p

/-- Helper: the deduplication loop's output has no duplicates. -/
theorem dedup_first_nodup :
    ∀ (l seen : List String), (dedup_first seen l).Nodup := by
  intro l
  induction l with
  | nil => intro seen; simp [dedup_first]
  | cons p rest ih =>
    intro seen
    by_cases hp : p ∈ seen
    · rw [show dedup_first seen (p :: rest) = dedup_first seen rest by
        simp [dedup_first, hp]]
      exact ih seen
    · rw [show dedup_first seen (p :: rest) = p :: dedup_first (p :: seen) rest by
        simp [dedup_first, hp]]
      refine List.Nodup.cons ?_ (ih (p :: seen))
      intro hmem
      exact ((dedup_first_mem rest (p :: seen) p).mp hmem).2 (List.mem_cons_self p seen)

/-- Helper: deduplicating a nonempty list yields a nonempty list. -/
theorem dedup_first_ne_nil :
    ∀ l : List String, l ≠ [] → dedup_first [] l ≠ [] := by
  intro l h
  cases l with
  | nil => exact absurd rfl h
  | cons p rest =>
    rw [show dedup_first [] (p :: rest) = p :: dedup_first [p] rest by
      simp [dedup_first]]
    exact List.cons_ne_nil _ _

/-- Helper: the deduplication loop preserves relative first-occurrence
order — positions in the output are ordered as the first occurrences in the
input. -/
theorem dedup_first_indexOf :
    ∀ (l seen : List String) (x y : String),
      x ∈ dedup_first seen l → y ∈ dedup_first seen l →
      ((dedup_first seen l).indexOf x ≤ (dedup_first seen l).indexOf y
        ↔ (l.indexOf x ≤ l.indexOf y)) := by
  intro l
  induction l with
  | nil => intro seen x y hx hy; simp [dedup_first] at hx
  | cons p rest ih =>
    intro seen x y hx hy
    by_cases hp : p ∈ seen
    · rw [show dedup_first seen (p :: rest) = dedup_first seen rest by
        simp [dedup_first, hp]] at hx hy ⊢
      have hxp : x ≠ p := fun he => ((dedup_first_mem rest seen x).mp hx).2 (he ▸ hp)
      have hyp : y ≠ p := fun he => ((dedup_first_mem rest seen y).mp hy).2 (he ▸ hp)
      rw [List.indexOf_cons_ne rest (Ne.symm hxp), List.indexOf_cons_ne rest (Ne.symm hyp),
        Nat.succ_le_succ_iff]
      exact ih seen x y hx hy
    · rw [show dedup_first seen (p :: rest) = p :: dedup_first (p :: seen) rest by
        simp [dedup_first, hp]] at hx hy ⊢
      by_cases hxp : x = p
      · subst hxp
        simp [List.indexOf_cons_self]
      · have hx' : x ∈ dedup_first (p :: seen) rest := by
          rcases List.mem_cons.mp hx with h | h
          · exact absurd h hxp
          · exact h
        by_cases hyp : y = p
        · subst hyp
          simp only [List.indexOf_cons_self, List.indexOf_cons_ne _ (Ne.symm hxp)]
          omega
        · have hy' : y ∈ dedup_first (p :: seen) rest := by
            rcases List.mem_cons.mp hy with h | h
            · exact absurd h hyp
            · exact h
          simp only [List.indexOf_cons_ne _ (Ne.symm hxp),
            List.indexOf_cons_ne _ (Ne.symm hyp), Nat.succ_le_succ_iff]
          exact ih (p :: seen) x y hx' hy'

/-- Helper: no base phenotype list contains a heart-rate sentence. -/
theorem base_phenos_no_hr (q : String) :
    hrFastS ∉ base_phenos q ∧ hrMidS ∉ base_phenos q ∧ hrSlowS ∉ base_phenos q := by
  unfold base_phenos
  repeat' split
  all_goals decide

/-- Helper: the TP tier sentence is never a heart-rate sentence. -/
theorem tp_part_no_hr (s : String) :
    hrFastS ∉ tp_part s ∧ hrMidS ∉ tp_part s ∧ hrSlowS ∉ tp_part s := by
  unfold tp_part
  repeat' split
  all_goals decide

/-- Helper: the RV tier sentence is never a heart-rate sentence. -/
theorem rv_part_no_hr (s : String) :
    hrFastS ∉ rv_part s ∧ hrMidS ∉ rv_part s ∧ hrSlowS ∉ rv_part s := by
  unfold rv_part
  repeat' split
  all_goals decide

/-- Helper: the SDNN tier sentence is never a heart-rate sentence. -/
theorem sd_part_no_hr (s : String) :
    hrFastS ∉ sd_part s ∧ hrMidS ∉ sd_part s ∧ hrSlowS ∉ sd_part s := by
  unfold sd_part
  repeat' split
  all_goals decide

/-- Helper: exact characterisation of the heart-rate sentence selection. -/
theorem hr_part_mem (hr : ℚ) :
    (hrFastS ∈ hr_part hr ↔ 85 < hr)
    ∧ (hrMidS ∈ hr_part hr ↔ 60 ≤ hr ∧ hr ≤ 80)
    ∧ (hrSlowS ∈ hr_part hr ↔ 40 < hr ∧ hr < 60) := by
  by_cases h1 : 85 < hr
  · rw [show hr_part hr = [hrFastS] by rw [hr_part, if_pos h1]]
    refine ⟨iff_of_true (List.mem_singleton_self _) h1,
      iff_of_false (by decide) ?_, iff_of_false (by decide) ?_⟩
    · rintro ⟨-, h80⟩
      linarith
    · rintro ⟨-, h60⟩
      linarith
  · by_cases h2 : 60 ≤ hr ∧ hr ≤ 80
    · rw [show hr_part hr = [hrMidS] by rw [hr_part, if_neg h1, if_pos h2]]
      refine ⟨iff_of_false (by decide) h1, iff_of_true (List.mem_singleton_self _) h2,
        iff_of_false (by decide) ?_⟩
      rintro ⟨-, h60⟩
      linarith [h2.1]
    · by_cases h3 : 40 < hr ∧ hr < 60
      · rw [show hr_part hr = [hrSlowS] by rw [hr_part, if_neg h1, if_neg h2, if_pos h3]]
        exact ⟨iff_of_false (by decide) h1, iff_of_false (by decide) h2,
          iff_of_true (List.mem_singleton_self _) h3⟩
      · rw [show hr_part hr = [] by rw [hr_part, if_neg h1, if_neg h2, if_neg h3]]
        exact ⟨iff_of_false (List.not_mem_nil _) h1,
          iff_of_false (List.not_mem_nil _) h2, iff_of_false (List.not_mem_nil _) h3⟩

/-- Claim C6: `generate_phenotypes` appends at most one heart-rate sentence,
selected by gapped ranges — the tense sentence is present iff `hr > 85`, the
normal-resting sentence iff `60 ≤ hr ≤ 80`, the slow/trained sentence iff
`40 < hr < 60`, and for `80 < hr ≤ 85` or `hr ≤ 40` no heart-rate sentence
appears at all. -/
theorem c6_hr_sentence_gapped_ranges :
    ∀ (hr : ℚ) (q : String) (li : LevelInfo),
      (hrFastS ∈ generate_phenotypes hr q li ↔ 85 < hr)
      ∧ (hrMidS ∈ generate_phenotypes hr q li ↔ 60 ≤ hr ∧ hr ≤ 80)
      ∧ (hrSlowS ∈ generate_phenotypes hr q li ↔ 40 < hr ∧ hr < 60)
      ∧ ((80 < hr ∧ hr ≤ 85) ∨ hr ≤ 40 →
          hrFastS ∉ generate_phenotypes hr q li
          ∧ hrMidS ∉ generate_phenotypes hr q li
          ∧ hrSlowS ∉ generate_phenotypes hr q li) := by
  intro hr q li
  have hmem : ∀ s, s ∈ generate_phenotypes hr q li ↔
      s ∈ base_phenos q ∨ s ∈ tp_part (level_core li.TP_Level)
      ∨ s ∈ rv_part (level_core li.RV_Level)
      ∨ s ∈ sd_part (level_core li.SDNN_Level) ∨ s ∈ hr_part hr := by
    intro s
    rw [generate_phenotypes, dedup_first_mem]
    simp [raw_phenos, List.mem_append, or_assoc]
  have hb := base_phenos_no_hr q
  have ht := tp_part_no_hr (level_core li.TP_Level)
  have hv := rv_part_no_hr (level_core li.RV_Level)
  have hs := sd_part_no_hr (level_core li.SDNN_Level)
  have hh := hr_part_mem hr
  have honly : ∀ s, (s = hrFastS ∨ s = hrMidS ∨ s = hrSlowS) →
      (s ∈ generate_phenotypes hr q li ↔ s ∈ hr_part hr) := by
    intro s hcase
    rw [hmem s]
    constructor
    · rintro (h | h | h | h | h)
      · rcases hcase with rfl | rfl | rfl
        · exact absurd h hb.1
        · exact absurd h hb.2.1
        · exact absurd h hb.2.2
      · rcases hcase with rfl | rfl | rfl
        · exact absurd h ht.1
        · exact absurd h ht.2.1
        · exact absurd h ht.2.2
      · rcases hcase with rfl | rfl | rfl
        · exact absurd h hv.1
        · exact absurd h hv.2.1
        · exact absurd h hv.2.2
      · rcases hcase with rfl | rfl | rfl
        · exact absurd h hs.1
        · exact absurd h hs.2.1
        · exact absurd h hs.2.2
      · exact h
    · intro h
      exact Or.inr (Or.inr (Or.inr (Or.inr h)))
  have hfast : hrFastS ∈ generate_phenotypes hr q li ↔ 85 < hr := by
    rw [honly hrFastS (Or.inl rfl)]
    exact hh.1
  have hmid : hrMidS ∈ generate_phenotypes hr q li ↔ 60 ≤ hr ∧ hr ≤ 80 := by
    rw [honly hrMidS (Or.inr (Or.inl rfl))]
    exact hh.2.1
  have hslow : hrSlowS ∈ generate_phenotypes hr q li ↔ 40 < hr ∧ hr < 60 := by
    rw [honly hrSlowS (Or.inr (Or.inr rfl))]
    exact hh.2.2
  refine ⟨hfast, hmid, hslow, fun hcond => ⟨?_, ?_, ?_⟩⟩
  · intro hm
    have := hfast.mp hm
    rcases hcond with ⟨-, h85⟩ | h40 <;> linarith
  · intro hm
    have := hmid.mp hm
    rcases hcond with ⟨h80, -⟩ | h40 <;> linarith [this.1, this.2]
  · intro hm
    have := hslow.mp hm
    rcases hcond with ⟨h80, -⟩ | h40 <;> linarith [this.1, this.2]

/-- Claim C6 witness: at `hr = 82` (in the intentional gap `(80, 85]`) no
heart-rate sentence is emitted. -/
theorem c6_hr_sentence_gapped_ranges_witness :
    hrFastS ∉ generate_phenotypes (82 : ℚ) quadYangShi ⟨tpHighL, rvHighL, sdHighL⟩
    ∧ hrMidS ∉ generate_phenotypes (82 : ℚ) quadYangShi ⟨tpHighL, rvHighL, sdHighL⟩
    ∧ hrSlowS ∉ generate_phenotypes (82 : ℚ) quadYangShi ⟨tpHighL, rvHighL, sdHighL⟩ :=
  (c6_hr_sentence_gapped_ranges 82 quadYangShi ⟨tpHighL, rvHighL, sdHighL⟩).2.2.2
    (Or.inl ⟨by norm_num, by norm_num⟩)

/-- Claim C7: the phenotype list is duplicate-free, is a sublist of the
as-appended statement list containing exactly its elements, keeps
first-occurrence order (positions compare as the first occurrences in the
appended list), and is never empty. -/
theorem c7_phenotypes_nodup_ordered_nonempty :
    ∀ (hr : ℚ) (q : String) (li : LevelInfo),
      (generate_phenotypes hr q li).Nodup
      ∧ generate_phenotypes hr q li ≠ []
      ∧ (generate_phenotypes hr q li).Sublist (raw_phenos hr q li)
      ∧ (∀ x, x ∈ generate_phenotypes hr q li ↔ x ∈ raw_phenos hr q li)
      ∧ (∀ x y, x ∈ generate_phenotypes hr q li → y ∈ generate_phenotypes hr q li →
          ((generate_phenotypes hr q li).indexOf x ≤ (generate_phenotypes hr q li).indexOf y
            ↔ (raw_phenos hr q li).indexOf x ≤ (raw_phenos hr q li).indexOf y)) := by
  intro hr q li
  have hbase : base_phenos q ≠ [] := by
    unfold base_phenos
    repeat' split
    all_goals decide
  have hraw : raw_phenos hr q li ≠ [] := by
    intro he
    unfold raw_phenos at he
    have h1 := (List.append_eq_nil.mp he).1
    have h2 := (List.append_eq_nil.mp h1).1
    have h3 := (List.append_eq_nil.mp h2).1
    exact hbase (List.append_eq_nil.mp h3).1
  refine ⟨dedup_first_nodup _ [], dedup_first_ne_nil _ hraw,
    dedup_first_sublist _ [], fun x => ?_, fun x y hx hy => ?_⟩
  · rw [generate_phenotypes, dedup_first_mem]
    simp
  · exact dedup_first_indexOf _ [] x y hx hy

/-- Claim C7 witness: the unknown-quadrant base sentence is a member of the
output for `hr = 70` with empty level labels, and its position respects
first-occurrence order. -/
theorem c7_phenotypes_nodup_ordered_nonempty_witness :
    (generate_phenotypes (70 : ℚ) unknownS ⟨"", "", ""⟩).indexOf unknownBaseS
      ≤ (generate_phenotypes (70 : ℚ) unknownS ⟨"", "", ""⟩).indexOf unknownBaseS := by
  have h := c7_phenotypes_nodup_ordered_nonempty 70 unknownS ⟨"", "", ""⟩
  have hb : base_phenos unknownS = [unknownBaseS] := by decide
  have hm : unknownBaseS ∈ generate_phenotypes (70 : ℚ) unknownS ⟨"", "", ""⟩ := by
    refine (h.2.2.2.1 unknownBaseS).mpr ?_
    unfold raw_phenos
    refine List.mem_append_left _ (List.mem_append_left _ (List.mem_append_left _
      (List.mem_append_left _ ?_)))
    rw [hb]
    exact List.mem_cons_self _ _
  exact (h.2.2.2.2 unknownBaseS unknownBaseS hm hm).mpr (le_refl _)

/-- Helper: a present yin-yang input always classifies to one of the two
axis values. -/
theorem classify_yin_yang_some (v th : ℝ) :
    classify_yin_yang (some v) th = yangS ∨ classify_yin_yang (some v) th = yinS := by
  by_cases h : th < v
  · exact Or.inl (by simp [classify_yin_yang, h])
  · exact Or.inr (by simp [classify_yin_yang, h])

/-- Helper: a present xu-shi input always classifies to one of the three
axis values. -/
theorem classify_xu_shi_some (v mu tol : ℝ) :
    classify_xu_shi (some v) mu tol = shiS ∨ classify_xu_shi (some v) mu tol = xuS
    ∨ classify_xu_shi (some v) mu tol = pingS := by
  by_cases h1 : mu + tol ≤ v
  · exact Or.inl (by simp [classify_xu_shi, h1])
  · by_cases h2 : v ≤ mu - tol
    · exact Or.inr (Or.inl (by simp [classify_xu_shi, h1, h2]))
    · exact Or.inr (Or.inr (by simp [classify_xu_shi, h1, h2]))

/-- Helper: on known axis values the quadrant is one of the five known
categories. -/
theorem classify_quadrant_known (yy xs : String)
    (hyy : yy = yangS ∨ yy = yinS) (hxs : xs = shiS ∨ xs = xuS ∨ xs = pingS) :
    classify_quadrant yy xs = quadYangShi ∨ classify_quadrant yy xs = quadYangXu
    ∨ classify_quadrant yy xs = quadYinShi ∨ classify_quadrant yy xs = quadYinXu
    ∨ classify_quadrant yy xs = quadBalanced := by
  rcases hyy with rfl | rfl <;> rcases hxs with rfl | rfl | rfl
  · exact Or.inl (by decide)
  · exact Or.inr (Or.inl (by decide))
  · exact Or.inr (Or.inr (Or.inr (Or.inr (by decide))))
  · exact Or.inr (Or.inr (Or.inl (by decide)))
  · exact Or.inr (Or.inr (Or.inr (Or.inl (by decide))))
  · exact Or.inr (Or.inr (Or.inr (Or.inr (by decide))))

/-- Claim C10: through the concrete dataclass every classifier input is a
present real number, so `analyze_quadrant` never produces `"未知"` on any
axis: yin-yang is always `"陰"`/`"陽"`, xu-shi always `"實"`/`"虛"`/`"平"`,
the quadrant always one of the five known categories — and the all-zero
measures (no frequency data at all) classify as `"陰虛型"`, not unknown. -/
theorem c10_analyze_quadrant_never_unknown :
    (∀ (m : HRVMeasures ℝ) (mu tol : ℝ),
      ((analyze_quadrant m mu tol).yin_yang = yangS
        ∨ (analyze_quadrant m mu tol).yin_yang = yinS)
      ∧ ((analyze_quadrant m mu tol).xu_shi = shiS
        ∨ (analyze_quadrant m mu tol).xu_shi = xuS
        ∨ (analyze_quadrant m mu tol).xu_shi = pingS)
      ∧ ((analyze_quadrant m mu tol).quadrant = quadYangShi
        ∨ (analyze_quadrant m mu tol).quadrant = quadYangXu
        ∨ (analyze_quadrant m mu tol).quadrant = quadYinShi
        ∨ (analyze_quadrant m mu tol).quadrant = quadYinXu
        ∨ (analyze_quadrant m mu tol).quadrant = quadBalanced)
      ∧ (analyze_quadrant m mu tol).yin_yang ≠ unknownS
      ∧ (analyze_quadrant m mu tol).xu_shi ≠ unknownS
      ∧ (analyze_quadrant m mu tol).quadrant ≠ unknownS)
    ∧ (analyze_quadrant zeroMeasures 6 (1/2)).quadrant = quadYinXu := by
  constructor
  · intro m mu tol
    have hyy : (analyze_quadrant m mu tol).yin_yang
        = classify_yin_yang (some m.lnLFHF) 0 := rfl
    have hxs : (analyze_quadrant m mu tol).xu_shi
        = classify_xu_shi (some m.lnTP) mu tol := rfl
    have hqd : (analyze_quadrant m mu tol).quadrant
        = classify_quadrant (classify_yin_yang (some m.lnLFHF) 0)
            (classify_xu_shi (some m.lnTP) mu tol) := rfl
    have h1 := classify_yin_yang_some m.lnLFHF 0
    have h2 := classify_xu_shi_some m.lnTP mu tol
    have h3 := classify_quadrant_known _ _ h1 h2
    rw [hyy, hxs, hqd]
    refine ⟨h1, h2, h3, ?_, ?_, ?_⟩
    · rcases h1 with h | h <;> rw [h] <;> decide
    · rcases h2 with h | h | h <;> rw [h] <;> decide
    · rcases h3 with h | h | h | h | h <;> rw [h] <;> decide
  · have hz1 : zeroMeasures.lnLFHF = 0 := sub_self _
    have hyy0 : (analyze_quadrant zeroMeasures 6 (1/2)).yin_yang = yinS := by
      show classify_yin_yang (some zeroMeasures.lnLFHF) 0 = yinS
      rw [hz1]
      simp [classify_yin_yang]
    have hlnTP : zeroMeasures.lnTP = Real.log (eps9 : ℝ) := by
      show safe_ln (some (0 : ℝ)) eps9 = Real.log (eps9 : ℝ)
      rw [safe_ln]
      norm_num [safe_ln_arg]
    have hlt : zeroMeasures.lnTP ≤ 6 - 1/2 := by
      rw [hlnTP]
      have hneg : Real.log (eps9 : ℝ) < 0 :=
        Real.log_neg (by norm_num [eps9]) (by norm_num [eps9])
      linarith
    have hxs0 : (analyze_quadrant zeroMeasures 6 (1/2)).xu_shi = xuS := by
      show classify_xu_shi (some zeroMeasures.lnTP) 6 (1/2) = xuS
      have hns : ¬((6 : ℝ) + 1/2 ≤ zeroMeasures.lnTP) := by
        intro hc
        linarith
      show (if (6 : ℝ) + 1/2 ≤ zeroMeasures.lnTP then shiS
        else if zeroMeasures.lnTP ≤ 6 - 1/2 then xuS else pingS) = xuS
      rw [if_neg hns, if_pos hlt]
    have hqd0 : (analyze_quadrant zeroMeasures 6 (1/2)).quadrant
        = classify_quadrant ((analyze_quadrant zeroMeasures 6 (1/2)).yin_yang)
            ((analyze_quadrant zeroMeasures 6 (1/2)).xu_shi) := rfl
    rw [hqd0, hyy0, hxs0]
    decide

/-- Helper: a string of positive length is not the empty string. -/
theorem string_length_pos_ne (s : String) (h : 0 < s.length) : s ≠ "" := by
  intro he
  rw [he] at h
  exact absurd h (by decide)

/-- Helper: an append whose left part has positive length is nonempty. -/
theorem append_left_ne (s t : String) (hs : 0 < s.length) : s ++ t ≠ "" := by
  apply string_length_pos_ne
  rw [String.length_append]
  omega

/-- Helper: joining a truthiness-filtered part list whose head is a nonempty
string yields a nonempty string. -/
theorem join_sp_filter_ne (a : String) (l : List String) (ha : 0 < a.length) :
    join_sp ((a :: l).filter (fun s => s != "")) ≠ "" := by
  have hane : a ≠ "" := string_length_pos_ne a ha
  have hfa : (a :: l).filter (fun s => s != "")
      = a :: l.filter (fun s => s != "") :=
    List.filter_cons_of_pos (by simpa using hane)
  rw [hfa]
  cases hlf : List.filter (fun s => s != "") l with
  | nil =>
    show join_sp [a] ≠ ""
    simpa [join_sp] using hane
  | cons b bs =>
    show a ++ " " ++ join_sp (b :: bs) ≠ ""
    apply string_length_pos_ne
    rw [String.length_append, String.length_append]
    omega

/-- Helper: the advice table never returns an empty list, whatever the key
(the Unknown fallback included). -/
theorem quadrant_advice_ne_nil (q : String) : QUADRANT_ADVICE q ≠ [] := by
  unfold QUADRANT_ADVICE
  repeat' split
  all_goals exact List.cons_ne_nil _ _

/-- Claim C9: `generate_summary` is total on well-formed measurements (the
embedding is a total function) and always returns a nonempty title, a
nonempty summary and a nonempty advice list — the description and advice
lookups fall back to the Unknown entries. -/
theorem c9_generate_summary_total_nonempty :
    ∀ (m : HRVMeasures ℝ) (name : Option String) (age : Option ℤ)
      (sex : Option String) (bmi : Option ℚ),
      (generate_summary m name age sex bmi).title ≠ ""
      ∧ (generate_summary m name age sex bmi).summary ≠ ""
      ∧ (generate_summary m name age sex bmi).advice ≠ [] := by
  intro m name age sex bmi
  refine ⟨?_, ?_, ?_⟩
  · by_cases hq : (analyze_quadrant m 6 (1/2)).quadrant = unknownS
    · rw [show (generate_summary m name age sex bmi).title
          = (if (analyze_quadrant m 6 (1/2)).quadrant = unknownS then "目前體質傾向：尚待觀察"
            else "目前體質傾向：" ++ (analyze_quadrant m 6 (1/2)).quadrant) from rfl,
        if_pos hq]
      decide
    · rw [show (generate_summary m name age sex bmi).title
          = (if (analyze_quadrant m 6 (1/2)).quadrant = unknownS then "目前體質傾向：尚待觀察"
            else "目前體質傾向：" ++ (analyze_quadrant m 6 (1/2)).quadrant) from rfl,
        if_neg hq]
      exact append_left_ne _ _ (by decide)
  · apply join_sp_filter_ne
    rw [String.length_append]
    have hl : 0 < ("本次自律神經量測結果如下：" : String).length := by decide
    omega
  · rw [show (generate_summary m name age sex bmi).advice
        = QUADRANT_ADVICE (analyze_quadrant m 6 (1/2)).quadrant from rfl]
    exact quadrant_advice_ne_nil _

/-- Claim C4 witness: a present value exactly at the threshold classifies as
`"陰"`, not `"未知"`. -/
theorem c4_classify_yin_yang_threshold_witness :
    classify_yin_yang (some (0 : ℚ)) 0 ≠ unknownS :=
  ((c4_classify_yin_yang_threshold.1 0 0).2.2)

/-- Claim C5 witness: the inclusive upper boundary `6.5` grades High. -/
theorem c5_levels_inclusive_boundaries_witness :
    tp_level ((13/2 : ℚ)) = tpHighL :=
  ((c5_levels_inclusive_boundaries.1 (13/2)).1).mpr (by norm_num)

/-- Claim C9 witness: the all-zero measurement still yields a nonempty
advice list. -/
theorem c9_generate_summary_total_nonempty_witness :
    (generate_summary zeroMeasures none none none none).advice ≠ [] :=
  (c9_generate_summary_total_nonempty zeroMeasures none none none none).2.2

/-- Claim C10 witness: the all-zero measurement's yin-yang axis is not
`"未知"`. -/
theorem c10_analyze_quadrant_never_unknown_witness :
    (analyze_quadrant zeroMeasures 6 (1/2)).yin_yang ≠ unknownS :=
  ((c10_analyze_quadrant_never_unknown.1 zeroMeasures 6 (1/2)).2.2.2.1)
